import Mathlib

/-!
Shallow embedding of the CV-analysis core of this repository: `analyze_cv`
(rep.py) and `analyze_cv_structure` (cvf.py).  Text is modelled as
`List Char`; Python `re` patterns, all of which in this code are built from
literals, character classes with counted repetition, alternation, optional
groups and word-boundary-wrapped literals, are modelled by a small
backtracking matcher whose preference order (leftmost alternative first,
greedy repetition) coincides with CPython's for this fragment.
-/

set_option maxRecDepth 4000

/-- Abbreviation turning a string literal into the `List Char` text model. -/
def S (s : String) : List Char := s.data

/-- Python's whitespace class `\s` / `str.split()` whitespace, restricted to
the ASCII whitespace characters (the inputs in this development are ASCII). -/
def pyIsSpace (c : Char) : Bool :=
  c = ' ' || c = '\t' || c = '\n' || c = '\r' || c = '\x0b' || c = '\x0c'

/-- Python `str.strip()`: drop leading and trailing whitespace. -/
def pyStrip (t : List Char) : List Char :=
  ((t.dropWhile pyIsSpace).reverse.dropWhile pyIsSpace).reverse

/-- Python `str.split()` (no separator): whitespace-delimited tokens, no
empty tokens.  The fuel argument is the length of the text; every step
consumes at least one character. -/
def pySplitWsGo : Nat → List Char → List (List Char)
  | 0, _ => []
  | _ + 1, [] => []
  | fuel + 1, c :: rest =>
    if pyIsSpace c then pySplitWsGo fuel rest
    else
      ((c :: rest).takeWhile (fun x => !pyIsSpace x)) ::
        pySplitWsGo fuel ((c :: rest).dropWhile (fun x => !pyIsSpace x))

/-- Python `str.split()` with no arguments. -/
def pySplitWs (t : List Char) : List (List Char) :=
  pySplitWsGo t.length t

/-- Python `str.splitlines()` restricted to the `\n`, `\r\n`, `\r`
terminators: terminators end a line, and no trailing empty line is produced
(`"".splitlines() = []`, `"a\n".splitlines() = ["a"]`). -/
def pySplitlinesGo (acc : List Char) : List Char → List (List Char)
  | [] => if acc = [] then [] else [acc]
  | '\r' :: '\n' :: rest => acc :: pySplitlinesGo [] rest
  | '\r' :: rest => acc :: pySplitlinesGo [] rest
  | '\n' :: rest => acc :: pySplitlinesGo [] rest
  | c :: rest => pySplitlinesGo (acc ++ [c]) rest

/-- Python `str.splitlines()`. -/
def pySplitlines (t : List Char) : List (List Char) :=
  pySplitlinesGo [] t

/-- Python `str.split('\n')`: every newline separates, empties kept,
`"".split('\n') = [""]`. -/
def splitNlGo (acc : List Char) : List Char → List (List Char)
  | [] => [acc]
  | '\n' :: rest => acc :: splitNlGo [] rest
  | c :: rest => splitNlGo (acc ++ [c]) rest

/-- Python `str.split('\n')`. -/
def splitNl (t : List Char) : List (List Char) :=
  splitNlGo [] t

/-- Python `"\n".join(lines)`. -/
def joinNl (ls : List (List Char)) : List Char :=
  List.intercalate ['\n'] ls

/-- Case-insensitive character comparison (`re.IGNORECASE` on ASCII). -/
def lowEq (a b : Char) : Bool := a.toLower == b.toLower

/-- Does the text (second argument) start with the pattern literal (first
argument), case-insensitively? -/
def startsWithCI : List Char → List Char → Bool
  | [], _ => true
  | _ :: _, [] => false
  | a :: as, b :: bs => lowEq a b && startsWithCI as bs

/-- Python's `\w` (ASCII): letters, digits, underscore. -/
def isWordChar (c : Char) : Bool := c.isAlpha || c.isDigit || c = '_'

/-- Regular-expression fragment used by this repository: literals (matched
case-insensitively; every case-sensitively applied literal in the sources
consists of case-less characters), character classes with counted
repetition `{lo,hi}` (`hi = none` means unbounded, covering `+`, `*`,
`{n,}`), concatenation, alternation and greedy optional groups. -/
inductive Rx where
  | lit : List Char → Rx
  | cls : (Char → Bool) → Nat → Option Nat → Rx
  | seq : Rx → Rx → Rx
  | alt : Rx → Rx → Rx
  | opt : Rx → Rx

/-- Abbreviation for a literal pattern. -/
def L (s : String) : Rx := Rx.lit s.data

/-- Consumed lengths a greedy counted character class can take at the head
of the text, longest first (the backtracking preference order). -/
def clsLens (p : Char → Bool) (lo : Nat) (hi : Option Nat) (t : List Char) : List Nat :=
  let run := (t.takeWhile p).length
  let top := match hi with
    | none => run
    | some h => min run h
  (List.range (top + 1 - lo)).map (fun i => top - i)

/-- All consumed lengths with which the pattern can match at the head of
the text, in the backtracking engine's preference order: the head of this
list is the length of the match CPython reports. -/
def mlens : Rx → List Char → List Nat
  | Rx.lit w, t => if startsWithCI w t then [w.length] else []
  | Rx.cls p lo hi, t => clsLens p lo hi t
  | Rx.seq a b, t =>
    ((mlens a t).map (fun la => (mlens b (t.drop la)).map (fun lb => la + lb))).flatten
  | Rx.alt a b, t => mlens a t ++ mlens b t
  | Rx.opt a, t => mlens a t ++ [0]

/-- Python `re.fullmatch`: some backtracking path consumes the whole text. -/
def fullmatchRx (r : Rx) (t : List Char) : Bool :=
  (mlens r t).contains t.length

/-- Python `re.search` truthiness: the pattern matches at some position
(including the end-of-text position). -/
def hasMatch (r : Rx) : List Char → Bool
  | [] => !(mlens r []).isEmpty
  | c :: rest => !(mlens r (c :: rest)).isEmpty || hasMatch r rest

/-- Python `re.findall` for a group-free pattern: scan left to right, at
each position take the first backtracking success, record the matched
substring and continue after it, otherwise advance one character.  None of
the repository's patterns can match the empty string, so a zero-length
match (unreachable here) is skipped.  Fuel is the text length; every step
consumes at least one character. -/
def scanAllGo (r : Rx) : Nat → List Char → List (List Char)
  | 0, _ => []
  | _ + 1, [] => []
  | fuel + 1, c :: rest =>
    match (mlens r (c :: rest)).head? with
    | some l =>
      if l = 0 then scanAllGo r fuel rest
      else (c :: rest).take l :: scanAllGo r fuel ((c :: rest).drop l)
    | none => scanAllGo r fuel rest

/-- Python `re.findall` for a group-free pattern. -/
def scanAll (r : Rx) (t : List Char) : List (List Char) :=
  scanAllGo r t.length t

/-- Python `re.findall(r'\bLIT\b', text, re.IGNORECASE)` for a literal
`LIT` starting and ending with word characters (all uses in rep.py do):
a match additionally requires a non-word character (or the text edge) on
both sides.  Returns the matched substrings in original case. -/
def findWordLitGo (w : List Char) : Nat → Option Char → List Char → List (List Char)
  | 0, _, _ => []
  | _ + 1, _, [] => []
  | fuel + 1, prev, c :: rest =>
    let beforeOk := match prev with
      | none => true
      | some pc => !isWordChar pc
    let afterOk := match ((c :: rest).drop w.length).head? with
      | none => true
      | some nc => !isWordChar nc
    if beforeOk && startsWithCI w (c :: rest) && afterOk then
      (c :: rest).take w.length ::
        findWordLitGo w fuel ((c :: rest).take w.length).getLast? ((c :: rest).drop w.length)
    else
      findWordLitGo w fuel (some c) rest

/-- Python `re.findall(r'\bLIT\b', text, re.IGNORECASE)`. -/
def findWordLit (w : List Char) (t : List Char) : List (List Char) :=
  findWordLitGo w t.length none t

/-- Python `re.search(r'\bLIT\b', text, re.IGNORECASE)` truthiness. -/
def searchWordLit (w : List Char) (t : List Char) : Bool :=
  !(findWordLit w t).isEmpty

/-- Left-nested alternation of a non-empty pattern list in source order;
the base case never matches (it is not used by the sources). -/
def altList : List Rx → Rx
  | [] => Rx.cls (fun _ => false) 1 (some 1)
  | [r] => r
  | r :: rs => Rx.alt r (altList rs)

/-- Alternation of literal words, in source order. -/
def litAlt (ws : List String) : Rx := altList (ws.map L)

/-- `\s+` -/
def sp1 : Rx := Rx.cls pyIsSpace 1 none

/-- `\s*` -/
def sp0 : Rx := Rx.cls pyIsSpace 0 none

/-! ### rep.py : `analyze_cv` -/

/-- rep.py pattern `(?i)(work\s+|professional\s+)?experience|employment|career`
(top-level alternation binds loosest).  Also cvf.py's identical
"Experience" section pattern. -/
def experiencePat : Rx :=
  Rx.alt
    (Rx.seq
      (Rx.opt (Rx.alt (Rx.seq (L "work") sp1) (Rx.seq (L "professional") sp1)))
      (L "experience"))
    (Rx.alt (L "employment") (L "career"))

/-- rep.py pattern `(?i)education|qualifications|study`. -/
def repEducationPat : Rx := altList [L "education", L "qualifications", L "study"]

/-- rep.py pattern `(?i)skills?|technologies|competencies`. -/
def repSkillsPat : Rx :=
  Rx.alt (Rx.seq (L "skill") (Rx.opt (L "s")))
    (Rx.alt (L "technologies") (L "competencies"))

/-- rep.py `section_patterns` dict, in insertion (iteration) order. -/
def repSectionPatterns : List (String × Rx) :=
  [("Experience", experiencePat), ("Education", repEducationPat), ("Skills", repSkillsPat)]

/-- The section name whose pattern fully matches the stripped line, taking
the first match in dict order (rep.py's inner `for ... break`). -/
def headerOf (stripped : List Char) : Option String :=
  (repSectionPatterns.find? (fun p => fullmatchRx p.2 stripped)).map (fun p => p.1)

/-- State of rep.py's line scan: `current_section`, `sections_found`, and
`sections_content` as an insertion-ordered association list of collected
body lines. -/
structure SecState where
  cur : Option String
  found : List String
  content : List (String × List (List Char))
  deriving Repr, DecidableEq

/-- Python `d[k] = v` on an insertion-ordered dict: replace in place if the
key exists, else append. -/
def setKey (m : List (String × List (List Char))) (k : String) (v : List (List Char)) :
    List (String × List (List Char)) :=
  if m.any (fun p => p.1 == k) then
    m.map (fun p => if p.1 == k then (p.1, v) else p)
  else
    m ++ [(k, v)]

/-- Python `d[k].append(v)`; in rep.py the key is always present when the
current section is set, so the update-in-place model coincides. -/
def appendKey (m : List (String × List (List Char))) (k : String) (v : List Char) :
    List (String × List (List Char)) :=
  m.map (fun p => if p.1 == k then (p.1, p.2 ++ [v]) else p)

/-- One iteration of rep.py's `for line in lines` body. -/
def secStep (st : SecState) (line : List Char) : SecState :=
  let stripped := pyStrip line
  if stripped = [] then st
  else
    match headerOf stripped with
    | some sec => ⟨some sec, st.found ++ [sec], setKey st.content sec []⟩
    | none =>
      match st.cur with
      | some sec => ⟨st.cur, st.found, appendKey st.content sec stripped⟩
      | none => st

/-- rep.py's full line scan from the initial state. -/
def runSections (ls : List (List Char)) : SecState :=
  ls.foldl secStep ⟨none, [], []⟩

/-- rep.py email pattern `[A-Za-z0-9._%+-]+@[A-Za-z0-9.-]+\.[A-Za-z]{2,}`
(identical to cvf.py's email contact pattern). -/
def emailPat : Rx :=
  Rx.seq (Rx.cls (fun c => c.isAlpha || c.isDigit || c = '.' || c = '_' || c = '%' || c = '+' || c = '-') 1 none)
    (Rx.seq (L "@")
      (Rx.seq (Rx.cls (fun c => c.isAlpha || c.isDigit || c = '.' || c = '-') 1 none)
        (Rx.seq (L ".") (Rx.cls Char.isAlpha 2 none))))

/-- rep.py phone pattern `\+?\d[\d\s-]{7,}`. -/
def repPhonePat : Rx :=
  Rx.seq (Rx.cls (fun c => c = '+') 0 (some 1))
    (Rx.seq (Rx.cls Char.isDigit 1 (some 1))
      (Rx.cls (fun c => c.isDigit || pyIsSpace c || c = '-') 7 none))

/-- rep.py `emails = re.findall(...)`. -/
def repEmails (t : List Char) : List (List Char) := scanAll emailPat t

/-- rep.py `phones = re.findall(...)`. -/
def repPhones (t : List Char) : List (List Char) := scanAll repPhonePat t

/-- rep.py education pattern passes, in listed order: `\bBSc\b`, `\bMSc\b`,
`\bPhD\b`, `University`, `College`, all `re.IGNORECASE`, matches
concatenated. -/
def repEduIndicators (t : List Char) : List (List Char) :=
  findWordLit (S "BSc") t ++ findWordLit (S "MSc") t ++ findWordLit (S "PhD") t ++
    scanAll (L "University") t ++ scanAll (L "College") t

/-- rep.py experience pattern passes, in listed order: `\bManager\b`,
`\bEngineer\b`, `\bExperience\b`, `\bEmployment\b`. -/
def repExpIndicators (t : List Char) : List (List Char) :=
  findWordLit (S "Manager") t ++ findWordLit (S "Engineer") t ++
    findWordLit (S "Experience") t ++ findWordLit (S "Employment") t

/-- rep.py `skills_list`. -/
def skillsList : List String :=
  ["Python", "SQL", "Kubernetes", "Project Management", "Data Analysis"]

/-- The result record of rep.py's `analyze_cv`. -/
structure RepAnalysis where
  total_chars : Nat
  total_words : Nat
  sections_found : List String
  sections_content : List (String × List Char)
  skills_indicators : List String
  experience_indicators : List (List Char)
  education_indicators : List (List Char)
  contact_info : List (List Char)
  potential_issues : List String
  deriving Repr, DecidableEq

/-- rep.py `analyze_cv`. -/
def analyze_cv (t : List Char) : RepAnalysis :=
  let st := runSections (pySplitlines t)
  { total_chars := t.length
    total_words := (pySplitWs t).length
    sections_found := st.found
    sections_content := st.content.map (fun p => (p.1, joinNl p.2))
    skills_indicators := skillsList.filter (fun sk => searchWordLit sk.data t)
    experience_indicators := repExpIndicators t
    education_indicators := repEduIndicators t
    contact_info := repEmails t ++ repPhones t
    potential_issues :=
      (if st.found.contains "Experience" then [] else ["Missing experience section"]) ++
      (if st.found.contains "Education" then [] else ["Missing education section"]) ++
      (if (repEmails t ++ repPhones t).isEmpty then ["No contact information found"] else []) }

/-! ### cvf.py : `analyze_cv_structure` -/

/-- cvf.py "Skills" section pattern
`(?i)(technical\s+)?skills?|competenc(ies|y)|technologies?`.  The capture
groups only affect what `re.findall` returns, not whether it is non-empty,
and cvf.py uses the result only for truthiness. -/
def cvfSkillsSecPat : Rx :=
  Rx.alt
    (Rx.seq (Rx.opt (Rx.seq (L "technical") sp1)) (Rx.seq (L "skill") (Rx.opt (L "s"))))
    (Rx.alt (Rx.seq (L "competenc") (Rx.alt (L "ies") (L "y")))
      (Rx.seq (L "technologie") (Rx.opt (L "s"))))

/-- cvf.py "Education" section pattern `(?i)education|qualifications?|academic`. -/
def cvfEducationSecPat : Rx :=
  altList [L "education", Rx.seq (L "qualification") (Rx.opt (L "s")), L "academic"]

/-- cvf.py "Contact" section pattern `(?i)contact|personal\s+info`. -/
def cvfContactSecPat : Rx :=
  Rx.alt (L "contact") (Rx.seq (L "personal") (Rx.seq sp1 (L "info")))

/-- cvf.py "Summary" section pattern `(?i)summary|profile|objective`. -/
def cvfSummarySecPat : Rx := altList [L "summary", L "profile", L "objective"]

/-- cvf.py "Projects" section pattern `(?i)projects?|portfolio`. -/
def cvfProjectsSecPat : Rx :=
  Rx.alt (Rx.seq (L "project") (Rx.opt (L "s"))) (L "portfolio")

/-- cvf.py `section_patterns` dict in insertion order; a section is found
when `re.findall(pattern, cv_text)` is non-empty, i.e. the pattern matches
SOMEWHERE in the whole text (substring search, not per-line full match). -/
def cvfSectionPatterns : List (String × Rx) :=
  [("Skills", cvfSkillsSecPat), ("Experience", experiencePat),
   ("Education", cvfEducationSecPat), ("Contact", cvfContactSecPat),
   ("Summary", cvfSummarySecPat), ("Projects", cvfProjectsSecPat)]

/-- cvf.py `skill_patterns`, in listed order. -/
def cvfSkillPats : List Rx :=
  [litAlt ["python", "javascript", "java", "sql", "html", "css", "react", "angular", "vue"],
   litAlt ["aws", "azure", "docker", "kubernetes", "git", "linux"],
   litAlt ["machine learning", "ai", "data science", "analytics"],
   litAlt ["project management", "leadership", "agile", "scrum"]]

/-- cvf.py pattern `\d+\+?\s+years?(?:\s+(?:of\s+)?experience)?`. -/
def cvfYearsPat : Rx :=
  Rx.seq (Rx.cls Char.isDigit 1 none)
    (Rx.seq (Rx.opt (L "+"))
      (Rx.seq sp1
        (Rx.seq (L "year")
          (Rx.seq (Rx.opt (L "s"))
            (Rx.opt (Rx.seq sp1 (Rx.seq (Rx.opt (Rx.seq (L "of") sp1)) (L "experience"))))))))

/-- cvf.py pattern `\d{4}\s*[-–]\s*(?:\d{4}|present|current)`. -/
def cvfDateRangePat : Rx :=
  Rx.seq (Rx.cls Char.isDigit 4 (some 4))
    (Rx.seq sp0
      (Rx.seq (Rx.cls (fun c => c = '-' || c = '–') 1 (some 1))
        (Rx.seq sp0
          (Rx.alt (Rx.cls Char.isDigit 4 (some 4)) (Rx.alt (L "present") (L "current"))))))

/-- cvf.py pattern `(?:january|...|december)\s+\d{4}`. -/
def cvfMonthYearPat : Rx :=
  Rx.seq
    (litAlt ["january", "february", "march", "april", "may", "june", "july",
             "august", "september", "october", "november", "december"])
    (Rx.seq sp1 (Rx.cls Char.isDigit 4 (some 4)))

/-- cvf.py `exp_patterns`, in listed order. -/
def cvfExpPats : List Rx :=
  [cvfYearsPat,
   litAlt ["senior", "junior", "lead", "principal", "manager", "director"],
   cvfDateRangePat,
   cvfMonthYearPat]

/-- cvf.py `edu_patterns`, in listed order (`certified?` is "certifie"
followed by an optional "d"). -/
def cvfEduPats : List Rx :=
  [litAlt ["bachelor", "master", "phd", "doctorate", "degree"],
   litAlt ["university", "college", "institute", "school"],
   litAlt ["bsc", "msc", "ba", "ma", "phd", "mba"],
   Rx.alt (Rx.seq (L "certifie") (Rx.opt (L "d"))) (L "certification")]

/-- cvf.py phone pattern `\+?\d{1,3}[-.\s]?\d{1,4}[-.\s]?\d{1,4}[-.\s]?\d{1,9}`. -/
def cvfPhonePat : Rx :=
  let sep := Rx.cls (fun c => c = '-' || c = '.' || pyIsSpace c) 0 (some 1)
  Rx.seq (Rx.cls (fun c => c = '+') 0 (some 1))
    (Rx.seq (Rx.cls Char.isDigit 1 (some 3))
      (Rx.seq sep
        (Rx.seq (Rx.cls Char.isDigit 1 (some 4))
          (Rx.seq sep
            (Rx.seq (Rx.cls Char.isDigit 1 (some 4))
              (Rx.seq sep (Rx.cls Char.isDigit 1 (some 9))))))))

/-- cvf.py LinkedIn pattern `linkedin\.com/in/[\w-]+`. -/
def cvfLinkedinPat : Rx :=
  Rx.seq (L "linkedin.com/in/") (Rx.cls (fun c => isWordChar c || c = '-') 1 none)

/-- cvf.py GitHub pattern `github\.com/[\w-]+`. -/
def cvfGithubPat : Rx :=
  Rx.seq (L "github.com/") (Rx.cls (fun c => isWordChar c || c = '-') 1 none)

/-- cvf.py `contact_patterns`, in listed order: email, phone, LinkedIn,
GitHub. -/
def cvfContactPats : List Rx := [emailPat, cvfPhonePat, cvfLinkedinPat, cvfGithubPat]

/-- cvf.py issue strings. -/
def cvfShortMsg : String := "CV seems very short (less than 500 characters)"

/-- cvf.py "too long" issue string. -/
def cvfLongMsg : String := "CV is quite long (over 10,000 characters) - consider summarizing"

/-- cvf.py "no skills" issue string. -/
def cvfNoSkillsMsg : String :=
  "No clear technical skills found - make sure to list your skills clearly"

/-- cvf.py "no experience" issue string. -/
def cvfNoExpMsg : String := "No clear work experience found - include job titles and dates"

/-- cvf.py "no section headers" issue string. -/
def cvfNoHeadersMsg : String :=
  "No clear section headers found - consider adding section headers like \x27SKILLS\x27 and \x27EXPERIENCE\x27"

/-- The result record of cvf.py's `analyze_cv_structure`.  The
`skills_indicators` field is Python's `list(set(...))`, whose element
order is unspecified; it is modelled by `List.dedup`, and theorems about
it only use membership and duplicate-freeness, which are the faithful
observables. -/
structure CvfAnalysis where
  total_chars : Nat
  total_words : Nat
  total_lines : Nat
  sections_found : List String
  skills_indicators : List (List Char)
  experience_indicators : List (List Char)
  education_indicators : List (List Char)
  contact_info : List (List Char)
  potential_issues : List String
  deriving Repr, DecidableEq

/-- cvf.py `analyze_cv_structure`. -/
def analyze_cv_structure (t : List Char) : CvfAnalysis :=
  let found := (cvfSectionPatterns.filter (fun p => hasMatch p.2 t)).map (fun p => p.1)
  let skills := ((cvfSkillPats.map (fun r => scanAll r t)).flatten).dedup
  let exps := (cvfExpPats.map (fun r => scanAll r t)).flatten
  let edus := (cvfEduPats.map (fun r => scanAll r t)).flatten
  let contacts := (cvfContactPats.map (fun r => scanAll r t)).flatten
  { total_chars := t.length
    total_words := (pySplitWs t).length
    total_lines := (splitNl t).length
    sections_found := found
    skills_indicators := skills
    experience_indicators := exps
    education_indicators := edus
    contact_info := contacts
    potential_issues :=
      (if t.length < 500 then [cvfShortMsg] else []) ++
      (if t.length > 10000 then [cvfLongMsg] else []) ++
      (if skills.isEmpty then [cvfNoSkillsMsg] else []) ++
      (if exps.isEmpty then [cvfNoExpMsg] else []) ++
      (if !(found.contains "Experience") && !(found.contains "Skills") then [cvfNoHeadersMsg]
       else []) }

/-! ### Helper lemmas about the section classifier -/

/-- The empty stripped line matches no header pattern. -/
theorem headerOf_nil : headerOf [] = none := by decide

/-- A line that strips to blank is skipped. -/
theorem secStep_blank (st : SecState) (l : List Char) (h : pyStrip l = []) :
    secStep st l = st := by
  simp [secStep, h]

/-- A header line opens its section, records it and resets its content. -/
theorem secStep_header (st : SecState) (l : List Char) (s : String)
    (h : pyStrip l ≠ []) (hh : headerOf (pyStrip l) = some s) :
    secStep st l = ⟨some s, st.found ++ [s], setKey st.content s []⟩ := by
  simp [secStep, h, hh]

/-- A non-blank non-header line inside an open section is appended to it. -/
theorem secStep_body (st : SecState) (l : List Char) (sec : String)
    (h : pyStrip l ≠ []) (hh : headerOf (pyStrip l) = none) (hc : st.cur = some sec) :
    secStep st l = ⟨st.cur, st.found, appendKey st.content sec (pyStrip l)⟩ := by
  simp [secStep, h, hh, hc]

/-- A non-blank non-header line before any section is discarded. -/
theorem secStep_discard (st : SecState) (l : List Char)
    (h : pyStrip l ≠ []) (hh : headerOf (pyStrip l) = none) (hc : st.cur = none) :
    secStep st l = st := by
  simp [secStep, h, hh, hc]

/-- The `sections_found` component of the scan is exactly the per-line
header classification, in order. -/
theorem found_foldl (ls : List (List Char)) :
    ∀ st : SecState, (List.foldl secStep st ls).found
      = st.found ++ ls.filterMap (fun l => headerOf (pyStrip l)) := by
  induction ls with
  | nil => intro st; simp
  | cons l ls ih =>
    intro st
    rw [List.foldl_cons, ih, List.filterMap_cons]
    by_cases h : pyStrip l = []
    · rw [h, headerOf_nil, secStep_blank st l h]
    · cases hh : headerOf (pyStrip l) with
      | some s =>
        rw [secStep_header st l s h hh]
        simp
      | none =>
        cases hc : st.cur with
        | some sec => rw [secStep_body st l sec h hh hc]
        | none => rw [secStep_discard st l h hh hc]

/-- `appendKey` does not change the key sequence. -/
theorem appendKey_fst (m : List (String × List (List Char))) (k : String) (v : List Char) :
    (appendKey m k v).map Prod.fst = m.map Prod.fst := by
  rw [appendKey, List.map_map]
  refine List.map_congr_left ?_
  intro p _
  by_cases hp : p.1 = k <;> simp [hp]

/-- Replacing a value in place does not change the key sequence. -/
theorem setKey_replace_fst (m : List (String × List (List Char))) (k : String)
    (v : List (List Char)) :
    (m.map (fun p => if p.1 == k then (p.1, v) else p)).map Prod.fst = m.map Prod.fst := by
  rw [List.map_map]
  refine List.map_congr_left ?_
  intro p _
  by_cases hp : p.1 = k <;> simp [hp]

/-- Key membership after a Python dict assignment `m[k] = v`. -/
theorem setKey_fst_mem (m : List (String × List (List Char))) (k : String)
    (v : List (List Char)) (x : String) :
    x ∈ (setKey m k v).map Prod.fst ↔ x ∈ m.map Prod.fst ∨ x = k := by
  rw [setKey]
  split
  case isTrue h =>
    rw [setKey_replace_fst]
    constructor
    · exact Or.inl
    · rintro (hx | rfl)
      · exact hx
      · obtain ⟨p, hp, hpk⟩ := List.any_eq_true.1 h
        exact List.mem_map.2 ⟨p, hp, eq_of_beq hpk⟩
  case isFalse h =>
    simp

/-- Invariant of the scan: a name is a key of the content dict exactly when
it occurs in `sections_found`. -/
theorem secKeys_foldl (ls : List (List Char)) :
    ∀ st : SecState, (∀ k, k ∈ st.content.map Prod.fst ↔ k ∈ st.found) →
      ∀ k, k ∈ (List.foldl secStep st ls).content.map Prod.fst
        ↔ k ∈ (List.foldl secStep st ls).found := by
  induction ls with
  | nil =>
    intro st h k
    simpa using h k
  | cons l ls ih =>
    intro st h
    rw [List.foldl_cons]
    apply ih
    intro k
    by_cases hb : pyStrip l = []
    · rw [secStep_blank st l hb]
      exact h k
    · cases hh : headerOf (pyStrip l) with
      | some s =>
        rw [secStep_header st l s hb hh]
        rw [show (SecState.mk (some s) (st.found ++ [s]) (setKey st.content s [])).content
              = setKey st.content s [] from rfl,
            show (SecState.mk (some s) (st.found ++ [s]) (setKey st.content s [])).found
              = st.found ++ [s] from rfl]
        rw [setKey_fst_mem, h k]
        simp
      | none =>
        cases hc : st.cur with
        | some sec =>
          rw [secStep_body st l sec hb hh hc]
          rw [show (SecState.mk st.cur st.found (appendKey st.content sec (pyStrip l))).content
                = appendKey st.content sec (pyStrip l) from rfl]
          rw [appendKey_fst]
          exact h k
        | none =>
          rw [secStep_discard st l hb hh hc]
          exact h k

/-- Lines that strip to non-headers leave the initial scan state unchanged:
they are either blank (skipped) or discarded because no section is open. -/
theorem runSections_drop_initial (pre : List (List Char))
    (h : ∀ l ∈ pre, headerOf (pyStrip l) = none) :
    ∀ rest, runSections (pre ++ rest) = runSections rest := by
  intro rest
  induction pre with
  | nil => rfl
  | cons l pre ih =>
    have hl : headerOf (pyStrip l) = none := h l (by simp)
    have hstep : secStep ⟨none, [], []⟩ l = ⟨none, [], []⟩ := by
      by_cases hb : pyStrip l = []
      · exact secStep_blank _ l hb
      · exact secStep_discard _ l hb hl rfl
    show List.foldl secStep ⟨none, [], []⟩ ((l :: pre) ++ rest) = _
    rw [List.cons_append, List.foldl_cons, hstep]
    exact ih (fun x hx => h x (by simp [hx]))

/-- Running the scan over non-blank non-header lines while a section with
the only content key is open appends the stripped lines to that key. -/
theorem runSections_body (body : List (List Char)) :
    ∀ (sec : String) (f : List String) (acc : List (List Char)),
      (∀ l ∈ body, pyStrip l ≠ [] ∧ headerOf (pyStrip l) = none) →
      List.foldl secStep ⟨some sec, f, [(sec, acc)]⟩ body
        = ⟨some sec, f, [(sec, acc ++ body.map pyStrip)]⟩ := by
  induction body with
  | nil =>
    intro sec f acc _
    simp
  | cons l body ih =>
    intro sec f acc h
    obtain ⟨h1, h2⟩ := h l (by simp)
    rw [List.foldl_cons, secStep_body _ l sec h1 h2 rfl]
    have hak : appendKey [(sec, acc)] sec (pyStrip l) = [(sec, acc ++ [pyStrip l])] := by
      simp [appendKey]
    rw [show (SecState.mk (SecState.mk (some sec) f [(sec, acc)]).cur
          (SecState.mk (some sec) f [(sec, acc)]).found
          (appendKey (SecState.mk (some sec) f [(sec, acc)]).content sec (pyStrip l)))
        = SecState.mk (some sec) f (appendKey [(sec, acc)] sec (pyStrip l)) from rfl, hak,
      ih sec f (acc ++ [pyStrip l]) (fun x hx => h x (by simp [hx]))]
    simp

/-- Element count in a filtered duplicate-free list. -/
theorem count_filter_of_nodup (l : List String) (p : String → Bool) (sk : String)
    (h : l.Nodup) :
    (l.filter p).count sk = if sk ∈ l ∧ p sk = true then 1 else 0 := by
  by_cases hc : sk ∈ l ∧ p sk = true
  · rw [if_pos hc]
    exact List.count_eq_one_of_mem (h.filter p) (List.mem_filter.2 ⟨hc.1, hc.2⟩)
  · rw [if_neg hc]
    refine List.count_eq_zero_of_not_mem (fun hm => hc ?_)
    obtain ⟨h1, h2⟩ := List.mem_filter.1 hm
    exact ⟨h1, h2⟩

/-! ### Claims -/

/-- C1 counterexample: on a text with two non-contiguous "Experience"
blocks, rep.py's `analyze_cv` records "Experience" twice in
`sections_found`, but the single `sections_content` entry holds ONLY the
lines of the second block ("BBB"): the first block's body ("AAA") is not
contained in it, contradicting the claim that both blocks are
concatenated. -/
theorem c1_counterexample :
    (analyze_cv (S "Experience\nAAA\nExperience\nBBB")).sections_found
      = ["Experience", "Experience"]
    ∧ (analyze_cv (S "Experience\nAAA\nExperience\nBBB")).sections_content
      = [("Experience", S "BBB")]
    ∧ ¬ List.IsInfix (S "AAA") (S "BBB") := by decide

/-- C1 (amended): a text whose lines are an "Experience" header, a block of
non-blank non-header lines, a second "Experience" header and a second such
block yields `sections_found` containing "Experience" twice and a single
`sections_content` entry whose value is the second block only: each
repeated header RESETS the accumulated content (`sections_content[sec] = []`
in rep.py) rather than appending to it. -/
theorem c1_amended (t : List Char) (body1 body2 : List (List Char))
    (hsplit : pySplitlines t = [S "Experience"] ++ body1 ++ [S "Experience"] ++ body2)
    (h1 : ∀ l ∈ body1, pyStrip l ≠ [] ∧ headerOf (pyStrip l) = none)
    (h2 : ∀ l ∈ body2, pyStrip l ≠ [] ∧ headerOf (pyStrip l) = none) :
    (analyze_cv t).sections_found = ["Experience", "Experience"]
    ∧ (analyze_cv t).sections_content
      = [("Experience", joinNl (body2.map pyStrip))] := by
  have hfound : (analyze_cv t).sections_found = (runSections (pySplitlines t)).found := rfl
  have hcontent : (analyze_cv t).sections_content
      = (runSections (pySplitlines t)).content.map (fun p => (p.1, joinNl p.2)) := rfl
  have hstep2 : ∀ v : List (List Char),
      secStep ⟨some "Experience", ["Experience"], [("Experience", v)]⟩ (S "Experience")
        = ⟨some "Experience", ["Experience", "Experience"], [("Experience", [])]⟩ := by
    intro v
    rw [secStep_header _ _ "Experience" (by decide) (by decide)]
    simp [setKey]
  have hrun : runSections (pySplitlines t)
      = ⟨some "Experience", ["Experience", "Experience"],
          [("Experience", body2.map pyStrip)]⟩ := by
    rw [hsplit,
      show ([S "Experience"] ++ body1 ++ [S "Experience"] ++ body2)
        = S "Experience" :: (body1 ++ (S "Experience" :: body2)) by simp]
    show List.foldl secStep ⟨none, [], []⟩ _ = _
    rw [List.foldl_cons,
      show secStep ⟨none, [], []⟩ (S "Experience")
        = ⟨some "Experience", ["Experience"], [("Experience", [])]⟩ from by decide,
      List.foldl_append, runSections_body body1 "Experience" ["Experience"] [] h1,
      List.foldl_cons, hstep2, runSections_body body2 "Experience" _ [] h2]
    simp
  rw [hfound, hcontent, hrun]
  simp

/-- C1 witness: the amended theorem applied to the concrete two-block text. -/
theorem c1_witness :
    (analyze_cv (S "Experience\nAA\nExperience\nBB")).sections_found
      = ["Experience", "Experience"]
    ∧ (analyze_cv (S "Experience\nAA\nExperience\nBB")).sections_content
      = [("Experience", joinNl ([S "BB"].map pyStrip))] :=
  c1_amended (S "Experience\nAA\nExperience\nBB") [S "AA"] [S "BB"]
    (by decide) (by decide) (by decide)

/-- C2 counterexample: in cvf.py's `analyze_cv_structure` section detection
is a substring `findall` over the whole text, not a full-line match: the
input "My Skills are strong" has no line that fully matches any section
pattern (of either implementation), yet `sections_found = ["Skills"]`,
contradicting "it contributes no element to sectionsFound". -/
theorem c2_counterexample :
    (analyze_cv_structure (S "My Skills are strong")).sections_found = ["Skills"]
    ∧ (∀ l ∈ pySplitlines (S "My Skills are strong"), headerOf (pyStrip l) = none)
    ∧ (∀ p ∈ cvfSectionPatterns,
        fullmatchRx p.2 (pyStrip (S "My Skills are strong")) = false) := by decide

/-- C2 (amended): in rep.py's `analyze_cv` a line is recorded in
`sections_found` exactly when its trimmed form fully matches one of the
per-section patterns (the list is precisely the per-line classification in
document order), and the non-header line "My Skills are strong" inside an
open section appears trimmed in that section's body; in cvf.py, by
contrast, section detection is a whole-text substring search (see the
counterexample). -/
theorem c2_amended :
    (∀ t : List Char, (analyze_cv t).sections_found
      = (pySplitlines t).filterMap (fun l => headerOf (pyStrip l)))
    ∧ (analyze_cv (S "Skills\n  My Skills are strong  ")).sections_found = ["Skills"]
    ∧ (analyze_cv (S "Skills\n  My Skills are strong  ")).sections_content
      = [("Skills", S "My Skills are strong")] := by
  refine ⟨fun t => ?_, by decide, by decide⟩
  have h : (analyze_cv t).sections_found = (runSections (pySplitlines t)).found := rfl
  rw [h]
  show (List.foldl secStep ⟨none, [], []⟩ _).found = _
  rw [found_foldl]
  rfl

/-- C3: in both implementations `total_chars` is the length of the input,
`total_words` is the number of whitespace-delimited tokens (Python
`str.split()`), and both counts are non-negative. -/
theorem c3_counts (t : List Char) :
    (analyze_cv t).total_chars = t.length
    ∧ (analyze_cv t).total_words = (pySplitWs t).length
    ∧ (analyze_cv_structure t).total_chars = t.length
    ∧ (analyze_cv_structure t).total_words = (pySplitWs t).length
    ∧ 0 ≤ (analyze_cv t).total_chars ∧ 0 ≤ (analyze_cv t).total_words
    ∧ 0 ≤ (analyze_cv_structure t).total_chars ∧ 0 ≤ (analyze_cv_structure t).total_words :=
  ⟨rfl, rfl, rfl, rfl, Nat.zero_le _, Nat.zero_le _, Nat.zero_le _, Nat.zero_le _⟩

/-- C4 counterexample: "sql" belongs to cvf.py's skill vocabulary and does
NOT occur as a whole word in the input "mysql", yet `analyze_cv_structure`
puts "sql" into `skills_indicators` (its matching is substring-based with
no word boundaries), contradicting "zero occurrences otherwise". -/
theorem c4_counterexample :
    (S "sql") ∈ (analyze_cv_structure (S "mysql")).skills_indicators
    ∧ findWordLit (S "sql") (S "mysql") = []
    ∧ searchWordLit (S "sql") (S "mysql") = false := by decide

/-- C4 (amended): in rep.py's `analyze_cv` the claim holds: a vocabulary
term occurs in `skills_indicators` exactly once when it occurs in the text
as a case-insensitive whole word and zero times otherwise (and any
non-vocabulary string occurs zero times); cvf.py's substring-matching
variant still never yields duplicate elements (`list(set(...))`). -/
theorem c4_amended :
    (∀ (t : List Char) (sk : String), (analyze_cv t).skills_indicators.count sk
      = if sk ∈ skillsList ∧ searchWordLit sk.data t = true then 1 else 0)
    ∧ (∀ t : List Char, (analyze_cv_structure t).skills_indicators.Nodup) := by
  constructor
  · intro t sk
    have h : (analyze_cv t).skills_indicators
        = skillsList.filter (fun sk => searchWordLit sk.data t) := rfl
    rw [h]
    exact count_filter_of_nodup _ _ _ (by decide)
  · intro t
    have h : (analyze_cv_structure t).skills_indicators
        = ((cvfSkillPats.map (fun r => scanAll r t)).flatten).dedup := rfl
    rw [h]
    exact List.nodup_dedup _

/-- C5 counterexample: cvf.py's `contact_info` is not the concatenation of
email matches and phone matches: on "linkedin.com/in/x" both of those are
empty, yet `contact_info` holds the LinkedIn match appended by the third
contact pattern pass. -/
theorem c5_counterexample :
    (analyze_cv_structure (S "linkedin.com/in/x")).contact_info = [S "linkedin.com/in/x"]
    ∧ scanAll emailPat (S "linkedin.com/in/x") = []
    ∧ scanAll cvfPhonePat (S "linkedin.com/in/x") = []
    ∧ (analyze_cv_structure (S "linkedin.com/in/x")).contact_info
      ≠ scanAll emailPat (S "linkedin.com/in/x")
        ++ scanAll cvfPhonePat (S "linkedin.com/in/x") := by decide

/-- C5 (amended): rep.py's `contact_info` is exactly the email matches
followed by the phone matches, in match order with duplicates preserved;
cvf.py's is the email matches, then phone matches, then LinkedIn matches,
then GitHub matches; and on "Contact: a@b.com, phone 123-456-7890" the
email "a@b.com" precedes the phone match. -/
theorem c5_amended :
    (∀ t : List Char, (analyze_cv t).contact_info = repEmails t ++ repPhones t)
    ∧ (∀ t : List Char, (analyze_cv_structure t).contact_info
        = scanAll emailPat t ++ scanAll cvfPhonePat t
          ++ scanAll cvfLinkedinPat t ++ scanAll cvfGithubPat t)
    ∧ (analyze_cv (S "Contact: a@b.com, phone 123-456-7890")).contact_info
      = [S "a@b.com", S "123-456-7890"] := by
  refine ⟨fun t => rfl, fun t => ?_, by decide⟩
  have h : (analyze_cv_structure t).contact_info
      = (cvfContactPats.map (fun r => scanAll r t)).flatten := rfl
  rw [h]
  simp [cvfContactPats, List.append_assoc]

/-- C6 counterexample: rep.py's `analyze_cv` emits NO length-based issue at
all: the empty input has fewer than 500 characters, but its
`potential_issues` does not contain the "too short" warning (it consists of
the missing-section and missing-contact warnings only). -/
theorem c6_counterexample :
    (S "").length < 500
    ∧ cvfShortMsg ∉ (analyze_cv (S "")).potential_issues
    ∧ (analyze_cv (S "")).potential_issues
      = ["Missing experience section", "Missing education section",
         "No contact information found"] := by decide

/-- Membership in a conditional singleton list. -/
theorem mem_ite_singleton {c : Prop} [Decidable c] {m x : String} :
    x ∈ (if c then [m] else ([] : List String)) ↔ c ∧ x = m := by
  split <;> simp_all

/-- Membership in a conditional singleton list (else branch). -/
theorem mem_ite_singleton_else {c : Prop} [Decidable c] {m x : String} :
    x ∈ (if c then ([] : List String) else [m]) ↔ ¬c ∧ x = m := by
  split <;> simp_all

/-- C6 (amended): in cvf.py's `analyze_cv_structure` the "too short"
warning is present exactly when the character count is below 500 and the
"too long" warning exactly when it exceeds 10,000 (each membership depends
only on the character count); rep.py's `analyze_cv` never emits either
warning. -/
theorem c6_amended (t : List Char) :
    (cvfShortMsg ∈ (analyze_cv_structure t).potential_issues ↔ t.length < 500)
    ∧ (cvfLongMsg ∈ (analyze_cv_structure t).potential_issues ↔ t.length > 10000)
    ∧ cvfShortMsg ∉ (analyze_cv t).potential_issues
    ∧ cvfLongMsg ∉ (analyze_cv t).potential_issues := by
  have hiss : (analyze_cv_structure t).potential_issues
      = (if t.length < 500 then [cvfShortMsg] else [])
        ++ (if t.length > 10000 then [cvfLongMsg] else [])
        ++ (if (((cvfSkillPats.map (fun r => scanAll r t)).flatten).dedup).isEmpty
            then [cvfNoSkillsMsg] else [])
        ++ (if ((cvfExpPats.map (fun r => scanAll r t)).flatten).isEmpty
            then [cvfNoExpMsg] else [])
        ++ (if !(((cvfSectionPatterns.filter (fun p => hasMatch p.2 t)).map
                  (fun p => p.1)).contains "Experience")
              && !(((cvfSectionPatterns.filter (fun p => hasMatch p.2 t)).map
                  (fun p => p.1)).contains "Skills")
            then [cvfNoHeadersMsg] else []) := rfl
  have hrep : (analyze_cv t).potential_issues
      = (if (runSections (pySplitlines t)).found.contains "Experience" then []
         else ["Missing experience section"])
        ++ (if (runSections (pySplitlines t)).found.contains "Education" then []
            else ["Missing education section"])
        ++ (if (repEmails t ++ repPhones t).isEmpty then ["No contact information found"]
            else []) := rfl
  refine ⟨?_, ?_, ?_, ?_⟩
  · rw [hiss]
    simp only [List.mem_append, mem_ite_singleton]
    simp [cvfShortMsg, cvfLongMsg, cvfNoSkillsMsg, cvfNoExpMsg, cvfNoHeadersMsg]
  · rw [hiss]
    simp only [List.mem_append, mem_ite_singleton]
    simp [cvfShortMsg, cvfLongMsg, cvfNoSkillsMsg, cvfNoExpMsg, cvfNoHeadersMsg]
  · rw [hrep]
    simp only [List.mem_append, mem_ite_singleton, mem_ite_singleton_else]
    simp [cvfShortMsg]
  · rw [hrep]
    simp only [List.mem_append, mem_ite_singleton, mem_ite_singleton_else]
    simp [cvfLongMsg]

/-- C7 counterexample: on the empty string cvf.py's line count is 1, not 0:
Python's `"".split('\n')` is `[""]`. -/
theorem c7_counterexample :
    (analyze_cv_structure (S "")).total_lines = 1
    ∧ (analyze_cv_structure (S "")).total_lines ≠ 0 := by decide

/-- C7 (amended): on the empty string `analyze_cv_structure` returns
character and word counts of zero, a LINE count of one (Python
`"".split('\n') = [""]`), all four indicator collections empty, and
exactly the short-text, no-skills, no-experience and missing-headers
issues, in that order. -/
theorem c7_amended :
    (analyze_cv_structure (S "")).total_chars = 0
    ∧ (analyze_cv_structure (S "")).total_words = 0
    ∧ (analyze_cv_structure (S "")).total_lines = 1
    ∧ (analyze_cv_structure (S "")).sections_found = []
    ∧ (analyze_cv_structure (S "")).skills_indicators = []
    ∧ (analyze_cv_structure (S "")).experience_indicators = []
    ∧ (analyze_cv_structure (S "")).education_indicators = []
    ∧ (analyze_cv_structure (S "")).contact_info = []
    ∧ (analyze_cv_structure (S "")).potential_issues
      = [cvfShortMsg, cvfNoSkillsMsg, cvfNoExpMsg, cvfNoHeadersMsg] := by decide

/-- C8 counterexample: a non-blank line preceding the first recognized
header IS retained in a field of the result: on "a@b.com\nSkills" the
pre-header body line "a@b.com" (blank-free, not a header) reappears
verbatim as an element of `contact_info`, because the indicator extractors
scan the whole original text. -/
theorem c8_counterexample :
    pySplitlines (S "a@b.com\nSkills") = [S "a@b.com", S "Skills"]
    ∧ pyStrip (S "a@b.com") = S "a@b.com"
    ∧ headerOf (pyStrip (S "a@b.com")) = none
    ∧ headerOf (pyStrip (S "Skills")) = some "Skills"
    ∧ (S "a@b.com") ∈ (analyze_cv (S "a@b.com\nSkills")).contact_info := by decide

/-- C8 (amended): if no line of the input is classified as a section
header, rep.py's `analyze_cv` yields an empty `sections_found` and an empty
`sections_content`; and any leading run of non-header lines leaves the
section scan exactly as if those lines were absent, so pre-header body
lines are never retained in the section fields — they may, however, still
be matched by the whole-text indicator extractors. -/
theorem c8_amended :
    (∀ t : List Char, (∀ l ∈ pySplitlines t, headerOf (pyStrip l) = none) →
      (analyze_cv t).sections_found = [] ∧ (analyze_cv t).sections_content = [])
    ∧ (∀ pre rest : List (List Char), (∀ l ∈ pre, headerOf (pyStrip l) = none) →
        runSections (pre ++ rest) = runSections rest) := by
  constructor
  · intro t h
    have hfound : (analyze_cv t).sections_found = (runSections (pySplitlines t)).found := rfl
    have hcontent : (analyze_cv t).sections_content
        = (runSections (pySplitlines t)).content.map (fun p => (p.1, joinNl p.2)) := rfl
    have hrun : runSections (pySplitlines t) = ⟨none, [], []⟩ := by
      have := runSections_drop_initial (pySplitlines t) h []
      rwa [List.append_nil] at this
    rw [hfound, hcontent, hrun]
    exact ⟨rfl, rfl⟩
  · exact fun pre rest h => runSections_drop_initial pre h rest

/-- C8 witness: the amended theorem applied to a header-free text and to a
concrete pre-header line. -/
theorem c8_witness :
    ((analyze_cv (S "john doe\nseasoned developer")).sections_found = []
      ∧ (analyze_cv (S "john doe\nseasoned developer")).sections_content = [])
    ∧ runSections ([S "a@b.com"] ++ [S "Skills"]) = runSections [S "Skills"] :=
  ⟨c8_amended.1 (S "john doe\nseasoned developer") (by decide),
   c8_amended.2 [S "a@b.com"] [S "Skills"] (by decide)⟩

/-- C9: both analysis functions are total Lean functions of the input text
(they cannot raise), every indicator field is always present in the result
record, and a field is empty exactly when each of its underlying pattern
passes found no match — so an absence of matches yields an empty
collection, never a missing key. -/
theorem c9_extractors_total (t : List Char) :
    ((analyze_cv t).skills_indicators = []
      ↔ ∀ sk ∈ skillsList, ¬searchWordLit sk.data t = true)
    ∧ ((analyze_cv t).experience_indicators = []
      ↔ findWordLit (S "Manager") t = [] ∧ findWordLit (S "Engineer") t = []
        ∧ findWordLit (S "Experience") t = [] ∧ findWordLit (S "Employment") t = [])
    ∧ ((analyze_cv t).education_indicators = []
      ↔ findWordLit (S "BSc") t = [] ∧ findWordLit (S "MSc") t = []
        ∧ findWordLit (S "PhD") t = []
        ∧ scanAll (L "University") t = [] ∧ scanAll (L "College") t = [])
    ∧ ((analyze_cv t).contact_info = [] ↔ repEmails t = [] ∧ repPhones t = [])
    ∧ ((analyze_cv_structure t).skills_indicators = [] ↔ ∀ r ∈ cvfSkillPats, scanAll r t = [])
    ∧ ((analyze_cv_structure t).experience_indicators = []
      ↔ ∀ r ∈ cvfExpPats, scanAll r t = [])
    ∧ ((analyze_cv_structure t).education_indicators = []
      ↔ ∀ r ∈ cvfEduPats, scanAll r t = [])
    ∧ ((analyze_cv_structure t).contact_info = []
      ↔ ∀ r ∈ cvfContactPats, scanAll r t = []) := by
  have h1 : (analyze_cv t).skills_indicators
      = skillsList.filter (fun sk => searchWordLit sk.data t) := rfl
  have h2 : (analyze_cv t).experience_indicators = repExpIndicators t := rfl
  have h3 : (analyze_cv t).education_indicators = repEduIndicators t := rfl
  have h4 : (analyze_cv t).contact_info = repEmails t ++ repPhones t := rfl
  have h5 : (analyze_cv_structure t).skills_indicators
      = ((cvfSkillPats.map (fun r => scanAll r t)).flatten).dedup := rfl
  have h6 : (analyze_cv_structure t).experience_indicators
      = (cvfExpPats.map (fun r => scanAll r t)).flatten := rfl
  have h7 : (analyze_cv_structure t).education_indicators
      = (cvfEduPats.map (fun r => scanAll r t)).flatten := rfl
  have h8 : (analyze_cv_structure t).contact_info
      = (cvfContactPats.map (fun r => scanAll r t)).flatten := rfl
  refine ⟨?_, ?_, ?_, ?_, ?_, ?_, ?_, ?_⟩
  · rw [h1, List.filter_eq_nil_iff]
  · rw [h2]
    simp [repExpIndicators, and_assoc]
  · rw [h3]
    simp [repEduIndicators, and_assoc]
  · rw [h4]
    simp
  · rw [h5, List.dedup_eq_nil]
    simp [List.flatten_eq_nil_iff]
  · rw [h6]
    simp [List.flatten_eq_nil_iff]
  · rw [h7]
    simp [List.flatten_eq_nil_iff]
  · rw [h8]
    simp [List.flatten_eq_nil_iff]

/-- C10: in rep.py's result the keys of `sections_content` are exactly the
distinct elements of `sections_found`: a name is a content key exactly when
it occurs in `sections_found`. -/
theorem c10_keys_invariant (t : List Char) (k : String) :
    k ∈ (analyze_cv t).sections_content.map Prod.fst
      ↔ k ∈ (analyze_cv t).sections_found := by
  have hfound : (analyze_cv t).sections_found = (runSections (pySplitlines t)).found := rfl
  have hcontent : (analyze_cv t).sections_content
      = (runSections (pySplitlines t)).content.map (fun p => (p.1, joinNl p.2)) := rfl
  rw [hfound, hcontent, List.map_map,
    show (Prod.fst ∘ fun p : String × List (List Char) => (p.1, joinNl p.2))
      = Prod.fst from rfl]
  exact secKeys_foldl (pySplitlines t) ⟨none, [], []⟩ (fun _ => by simp) k
